import Mathlib

/-!
Shallow embedding of the clutch scraping pipeline
(`bulk_sitemap_processor.py`, `sitemap_scraper.py`,
`clutch_profile_scraper.py`, `simple_profile_scraper.py`) and proofs of
the specification claims about it.
-/

namespace Clutch

/-! ## ResilientFetcher: `BulkSitemapProcessor.fetch_sitemap_with_retry`

The network is abstracted as an oracle mapping the attempt number to what
`session.get` + validation observed on that attempt:
* `ok content` — HTTP success and the content was identified as XML
  (content-type contains "xml" or the body starts with an XML declaration);
* `nonXml` — HTTP success but the content was not identifiable as XML;
* `reqError` — `requests.RequestException` was raised.
-/

inductive AttemptResult where
  | ok (content : String)
  | nonXml
  | reqError
deriving DecidableEq, Repr

/-- The three request-header profiles of `headers_list` in
`fetch_sitemap_with_retry`, represented by their `User-Agent` values. -/
def headers_list : List String :=
  [ "Mozilla/5.0 (Macintosh; Intel Mac OS X 10_15_7) AppleWebKit/537.36 (KHTML, like Gecko) Chrome/120.0.0.0 Safari/537.36"
  , "Python-sitemap-parser/1.0"
  , "Googlebot/2.1 (+http://www.google.com/bot.html)" ]

/-- Observable trace of one call to `fetch_sitemap_with_retry`:
the returned value (`none` models Python's `None`), the number of fetch
attempts made, the sleep durations (in seconds) inserted between attempts,
and the header profile used on each attempt, in order. -/
structure FetchTrace where
  result : Option String
  attempts : Nat
  delays : List Nat
  headersUsed : List String
deriving DecidableEq, Repr

/-- The body of the `for attempt in range(max_retries)` loop of
`fetch_sitemap_with_retry`, run over the list of remaining attempt
numbers.  Each iteration picks
`headers_list[attempt % len(headers_list)]`, performs the fetch, returns
the text on validated success, and otherwise sleeps `2 ** attempt`
seconds when `attempt < max_retries - 1` before the next iteration;
after the loop the function returns `None`. -/
def fetchLoop (oracle : Nat → AttemptResult) (maxRetries : Nat) :
    List Nat → FetchTrace
  | [] => ⟨none, 0, [], []⟩
  | attempt :: restAttempts =>
    let hdr := headers_list[attempt % headers_list.length]!
    match oracle attempt with
    | .ok content => ⟨some content, 1, [], [hdr]⟩
    | .nonXml =>
        let rest := fetchLoop oracle maxRetries restAttempts
        ⟨rest.result, rest.attempts + 1,
          if attempt < maxRetries - 1 then 2 ^ attempt :: rest.delays else rest.delays,
          hdr :: rest.headersUsed⟩
    | .reqError =>
        let rest := fetchLoop oracle maxRetries restAttempts
        ⟨rest.result, rest.attempts + 1,
          if attempt < maxRetries - 1 then 2 ^ attempt :: rest.delays else rest.delays,
          hdr :: rest.headersUsed⟩

/-- Model of `fetch_sitemap_with_retry(sitemap_url, max_retries)`; the default is
`max_retries = 3`. -/
def fetch_sitemap_with_retry (oracle : Nat → AttemptResult)
    (maxRetries : Nat := 3) : FetchTrace :=
  fetchLoop oracle maxRetries (List.range maxRetries)

/-! ## SitemapResolver: `BulkSitemapProcessor.parse_sitemap_xml`,
`process_single_sitemap`

An `ElementTree` element: tag (namespace-qualified tags are rendered
`{uri}local`, as `xml.etree.ElementTree` does), optional text, children.
-/

inductive XElem where
  | node (tag : String) (text : Option String) (children : List XElem)

def XElem.tag : XElem → String
  | .node t _ _ => t

def XElem.text : XElem → Option String
  | .node _ tx _ => tx

def XElem.children : XElem → List XElem
  | .node _ _ cs => cs

mutual
/-- All proper descendants of an element, in document order;
`root.findall('.//tag')` searches exactly these. -/
def XElem.descendants : XElem → List XElem
  | .node _ _ cs => descList cs

def descList : List XElem → List XElem
  | [] => []
  | c :: cs => c :: XElem.descendants c ++ descList cs
end

/-- Model of `root.findall('.//t')`: all descendants with tag `t`. -/
def findall (root : XElem) (t : String) : List XElem :=
  root.descendants.filter (fun e => e.tag == t)

/-- Model of `elem.find('t')`: first direct child with tag `t`. -/
def findChild (e : XElem) (t : String) : Option XElem :=
  e.children.find? (fun c => c.tag == t)

/-- The sitemap namespace prefix ElementTree puts on qualified tags. -/
def sitemapNS : String := "\x7bhttp://www.sitemaps.org/schemas/sitemap/0.9\x7d"

/-- Python's `str.strip()`: drop leading and trailing whitespace. -/
def pyStrip (s : String) : String :=
  ⟨((s.data.dropWhile Char.isWhitespace).reverse.dropWhile
      Char.isWhitespace).reverse⟩

/-- The append loops of `parse_sitemap_xml`: for each element, if its
first `loc` child exists and has truthy (non-`None`, non-empty) text,
append the stripped text. -/
def locEntries (elems : List XElem) (locTag : String) : List String :=
  elems.filterMap fun u =>
    match findChild u locTag with
    | some l =>
      match l.text with
      | some t => if t == "" then none else some (pyStrip t)
      | none => none
    | none => none

/-- Model of `BulkSitemapProcessor.parse_sitemap_xml` (and, identically for these
tags, `SitemapScraper.parse_sitemap_xml`): extract namespace-qualified
`<url><loc>` entries; if none were found, extract unqualified
`<url><loc>` entries. Only this `urls` list is returned — the
`sitemap_refs` the function also gathers (see `sitemapRefs`) are printed
to the console and discarded. -/
def parse_sitemap_xml (root : XElem) : List String :=
  let urls := locEntries (findall root (sitemapNS ++ "url")) (sitemapNS ++ "loc")
  if urls.isEmpty then locEntries (findall root "url") "loc" else urls

/-- The `sitemap_refs` list gathered by `parse_sitemap_xml` from
`<sitemap><loc>` entries (namespace-qualified first, unqualified as
fallback); it is only logged, never resolved. -/
def sitemapRefs (root : XElem) : List String :=
  let refs := locEntries (findall root (sitemapNS ++ "sitemap")) (sitemapNS ++ "loc")
  if refs.isEmpty then locEntries (findall root "sitemap") "loc" else refs

/-- Model of `BulkSitemapProcessor.process_single_sitemap`: obtain the XML
document (`none` models a failed fetch/read or an `ET.ParseError`) and
parse it; nothing in the call graph recurses into child sitemaps. -/
def process_single_sitemap (content : Option XElem) : List String :=
  match content with
  | some root => parse_sitemap_xml root
  | none => []

/-- A sitemap-index document with two child-sitemap references
(unqualified tag shape). -/
def exIndex : XElem :=
  .node "sitemapindex" none
    [ .node "sitemap" none
        [.node "loc" (some "https://clutch.co/sitemap-profile-1.xml") []]
    , .node "sitemap" none
        [.node "loc" (some "https://clutch.co/sitemap-profile-2.xml") []] ]

/-- The first referenced child sitemap: two distinct profile URLs. -/
def exChild1 : XElem :=
  .node "urlset" none
    [ .node "url" none [.node "loc" (some "https://clutch.co/profile/a") []]
    , .node "url" none [.node "loc" (some "https://clutch.co/profile/b") []] ]

/-- The second referenced child sitemap: two further distinct URLs. -/
def exChild2 : XElem :=
  .node "urlset" none
    [ .node "url" none [.node "loc" (some "https://clutch.co/profile/c") []]
    , .node "url" none [.node "loc" (some "https://clutch.co/profile/d") []] ]

/-! ## BatchRunner: `ClutchProfileScraper.scrape_multiple_profiles` and
`save_results`

`scrape_profile` performs network I/O; it is abstracted as an oracle
`scrape : String → Option BatchRecord` where `none` models an exception
raised while scraping (caught by the runner, which logs and moves on)
and `some r` the returned dict — a full profile record or the
`{'error': …, 'url': url}` placeholder, both carrying the input URL in
their `url` key.  Disk writes are abstracted by `writeOk n`, telling
whether the `n`-th `save_results` write succeeds or raises. -/

/-- One entry of the JSON ledger; the runner inspects only `url`
(`r.get('url')`), so the rest of the dict is abstracted as `payload`. -/
structure BatchRecord where
  url : String
  payload : String
deriving DecidableEq, Repr

/-- State of one `scrape_multiple_profiles` run: the in-memory `results`
list, the ledger as last successfully written to disk, and the number of
`save_results` calls made so far. -/
structure BatchState where
  results : List BatchRecord
  storage : List BatchRecord
  saves : Nat
deriving DecidableEq, Repr

/-- Model of `ClutchProfileScraper.save_results`: write `results` to the output
file inside `try/except` — on a write error the exception is caught and
logged and execution continues, so only `storage` is conditionally
updated. -/
def save_results (writeOk : Nat → Bool) (st : BatchState)
    (results : List BatchRecord) : BatchState :=
  { results := results
  , storage := if writeOk st.saves then results else st.storage
  , saves := st.saves + 1 }

/-- One iteration of the URL loop in `scrape_multiple_profiles`: skip
the URL if some existing result already carries it; otherwise scrape,
append the result, and save immediately (an exception during scraping is
logged and nothing is appended). -/
def processUrl (scrape : String → Option BatchRecord) (writeOk : Nat → Bool)
    (st : BatchState) (url : String) : BatchState :=
  if st.results.any (fun r => r.url == url) then st
  else
    match scrape url with
    | some result =>
        save_results writeOk { st with results := st.results ++ [result] }
          (st.results ++ [result])
    | none => st

/-- Model of `ClutchProfileScraper.scrape_multiple_profiles`: load the existing
ledger (the `loaded` list, which is also what the output file holds when
the run starts) and fold the URL loop over it. -/
def scrape_multiple_profiles (scrape : String → Option BatchRecord)
    (writeOk : Nat → Bool) (loaded : List BatchRecord)
    (urls : List String) : BatchState :=
  urls.foldl (processUrl scrape writeOk) ⟨loaded, loaded, 0⟩

/-! ## FieldExtractor: `SimpleClutchScraper.extract_basic_info`

Regular-expression matching is abstracted as an oracle `RegexEngine`
applied to the pattern strings copied from the source;
`search pat text` returns the captured groups of the first match (so
`match.group(1)` is the head), `findall pat text` the values of every
match of a one-group pattern, and `findallPairs pat text` the group
tuples of every match of a two-group pattern.  `pyFloat` abstracts
CPython's `float()` on a matched numeric literal, with floats embedded
as rationals. -/

structure RegexEngine where
  search : String → String → Option (List String)
  findall : String → String → List String
  findallPairs : String → String → List (String × String)
  pyFloat : String → ℚ

/-- Python's `int()` on a regex-matched digit string. -/
def pyInt (s : String) : Nat :=
  s.toNat?.getD 0

/-- Python's `str.isdigit()` (ASCII case): non-empty and all digits. -/
def pyIsdigit (s : String) : Bool :=
  s != "" && s.data.all Char.isDigit

/-- Python's `str.lower()` (ASCII case). -/
def pyLower (s : String) : String :=
  ⟨s.data.map Char.toLower⟩

/-- Python's `sub in s` substring membership test. -/
def listHasSub (sub : List Char) : List Char → Bool
  | [] => sub.isEmpty
  | c :: cs => sub.isPrefixOf (c :: cs) || listHasSub sub cs

/-- Python's `sub in s` on strings. -/
def strHasSub (s sub : String) : Bool :=
  listHasSub sub.data s.data

/-- Python's `str.title()` (ASCII case): uppercase each letter that
follows a non-letter, lowercase every other letter. -/
def pyTitleAux : List Char → Bool → List Char
  | [], _ => []
  | c :: cs, prevAlpha =>
    if c.isAlpha then
      (if prevAlpha then c.toLower else c.toUpper) :: pyTitleAux cs true
    else c :: pyTitleAux cs false

/-- Python's `str.title()` on strings. -/
def pyTitle (s : String) : String :=
  ⟨pyTitleAux s.data false⟩

/-- Python's `s.replace(a, b)` for the single-character arguments the
source uses (`'-'` ↦ `' '`): replace every occurrence. -/
def replaceChar (s : String) (a b : Char) : String :=
  ⟨s.data.map (fun c => if c == a then b else c)⟩

/-- Python's `url.split(sep)` for a one-character separator: the
resulting list is never empty. -/
def splitCharAux (sep : Char) : List Char → List Char → List String
  | [], acc => [⟨acc.reverse⟩]
  | c :: cs, acc =>
    if c == sep then ⟨acc.reverse⟩ :: splitCharAux sep cs []
    else splitCharAux sep cs (c :: acc)

/-- Python's `url.split(sep)` on strings. -/
def pySplitChar (s : String) (sep : Char) : List String :=
  splitCharAux sep s.data []

/-- The per-field pattern loop repeated throughout `extract_basic_info`:
try each strategy in declaration order; when it yields a value, commit
it and stop if it passes the field's validation, otherwise move on to
the next strategy. -/
def tryPatterns (patterns : List (String → Option String))
    (validate : String → Bool) (html : String) : Option String :=
  match patterns with
  | [] => none
  | p :: rest =>
    match p html with
    | some v => if validate v then some v else tryPatterns rest validate html
    | none => tryPatterns rest validate html

/-- The findall-based loop used for the location field: scan each
pattern's matches in order and commit the first match passing the
validation. -/
def findValidMatch : List (List String) → (String → Bool) → Option String
  | [], _ => none
  | ms :: rest, valid =>
    match ms.find? valid with
    | some l => some l
    | none => findValidMatch rest valid

/-- One `{'service': …, 'percentage': …}` entry of a services list. -/
structure ServiceEntry where
  service : String
  percentage : String
deriving DecidableEq, Repr

def name_patterns : List String :=
  [ "<h1[^>]*>([^<]+)</h1>"
  , "<title>([^|<]+)"
  , "\"name\":\"([^\"]+)\"" ]

def review_patterns : List String :=
  [ "(\\d+)\\s*review"
  , "\"reviewCount\":(\\d+)"
  , "reviewCount[\"\\']:\\s*(\\d+)" ]

def location_patterns : List String :=
  [ "([A-Za-z\\s]+,\\s*[A-Za-z\\s]+)"
  , "\"location\":\"([^\"]+)\""
  , "Location[^>]*>([^<]+)" ]

def project_patterns : List String :=
  [ "\\$([0-9,]+\\+?)(?:\\s*minimum|\\s*min)"
  , "Min.*project.*\\$([0-9,]+)"
  , "minimum.*\\$([0-9,]+)" ]

def rate_patterns : List String :=
  [ "\\$(\\d+)\\s*-\\s*\\$(\\d+)\\s*/?\\s*hr"
  , "(\\d+)\\s*-\\s*(\\d+)\\s*per\\s*hour"
  , "\"hourlyRate\":\"([^\"]+)\"" ]

def employee_patterns : List String :=
  [ "(\\d+)\\s*-\\s*(\\d+)\\s*employees"
  , "team.*size.*(\\d+)\\s*-\\s*(\\d+)"
  , "\"employees\":\"([^\"]+)\"" ]

def founded_patterns : List String :=
  [ "Founded\\s*(\\d\x7b4\x7d)"
  , "established\\s*(\\d\x7b4\x7d)"
  , "\"founded\":(\\d\x7b4\x7d)" ]

/-- The two label/percentage orderings scanned for the services field;
the identical list appears in `simple_profile_scraper.py` and in
`ClutchProfileScraper._extract_services`. -/
def service_patterns : List String :=
  [ "([A-Za-z\\s&/]+)\\s*(\\d+)%"
  , "(\\d+)%\\s*([A-Za-z\\s&/]+)" ]

def website_patterns : List String :=
  [ "href=\"(https?://[^\"]+)\"[^>]*[^>]*(?:visit|website)"
  , "\"website\":\"(https?://[^\"]+)\"" ]

def desc_patterns : List String :=
  [ "<meta[^>]*name=[\"\\']description[\"\\'][^>]*content=[\"\\']([^\"\\']+)[\"\\']"
  , "<p[^>]*>([^<]\x7b50,200\x7d)</p>" ]

/-- The services loop shared by `extract_basic_info` (which additionally
validates the label length) and `_extract_services`: orient each
two-group match by `match[0].isdigit()`, strip the label, and append
`label / "N%"`. -/
def servicesLoop (eng : RegexEngine) (text : String)
    (keep : String → Bool) : List ServiceEntry :=
  service_patterns.foldl (fun services pat =>
    services ++ (eng.findallPairs pat text).filterMap (fun m =>
      let sp := if pyIsdigit m.1 then (m.2, m.1) else (m.1, m.2)
      let service := pyStrip sp.1
      if keep service then some ⟨service, sp.2 ++ "%"⟩ else none)) []

/-- The record built by `extract_basic_info`, one field per dict key in
declaration order. -/
structure SimpleRecord where
  url : String
  company_name : String
  description : String
  reviews_count : Nat
  location : String
  min_project_size : String
  hourly_rate : String
  employees : String
  year_founded : String
  services : List ServiceEntry
  contact_website : String
  extraction_method : String
deriving DecidableEq, Repr

/-- Model of `SimpleClutchScraper.extract_basic_info(html, url)`: every
field runs its own pattern cascade over `html` and keeps its initialised
default when no strategy commits. -/
def extract_basic_info (eng : RegexEngine) (html url : String) :
    SimpleRecord :=
  { url := url
  , company_name :=
      (tryPatterns
        (name_patterns.map (fun pat h =>
          (eng.search pat h).map (fun gs => pyStrip (gs.headD ""))))
        (fun name => name != "" && name.length < 100) html).getD ""
  , description :=
      (tryPatterns
        (desc_patterns.map (fun pat h =>
          (eng.search pat h).map (fun gs => pyStrip (gs.headD ""))))
        (fun desc => desc.length > 20) html).getD ""
  , reviews_count :=
      ((tryPatterns
        (review_patterns.map (fun pat h =>
          (eng.search pat h).map (fun gs => gs.headD "")))
        (fun _ => true) html).map pyInt).getD 0
  , location :=
      (findValidMatch
        (location_patterns.map (fun pat =>
          (eng.findall pat html).map pyStrip))
        (fun location =>
          location != "" && strHasSub location "," &&
            location.length < 50)).getD ""
  , min_project_size :=
      (tryPatterns
        (project_patterns.map (fun pat h =>
          (eng.search pat h).map (fun gs => "$" ++ gs.headD "")))
        (fun _ => true) html).getD ""
  , hourly_rate :=
      (tryPatterns
        (rate_patterns.map (fun pat h =>
          (eng.search pat h).map (fun gs =>
            if 2 ≤ gs.length then
              "$" ++ gs.headD "" ++ " - $" ++ gs.getD 1 "" ++ " / hr"
            else gs.headD "")))
        (fun _ => true) html).getD ""
  , employees :=
      (tryPatterns
        (employee_patterns.map (fun pat h =>
          (eng.search pat h).map (fun gs =>
            if 2 ≤ gs.length then
              gs.headD "" ++ " - " ++ gs.getD 1 ""
            else gs.headD "")))
        (fun _ => true) html).getD ""
  , year_founded :=
      (tryPatterns
        (founded_patterns.map (fun pat h =>
          (eng.search pat h).map (fun gs => gs.headD "")))
        (fun _ => true) html).getD ""
  , services :=
      (servicesLoop eng html
        (fun service => 5 < service.length && service.length < 50)).take 10
  , contact_website :=
      (tryPatterns
        (website_patterns.map (fun pat h =>
          (eng.search pat h).map (fun gs => gs.headD "")))
        (fun website => !(strHasSub website "clutch.co")) html).getD ""
  , extraction_method := "regex_patterns" }

/-! ## FieldExtractor: `ClutchProfileScraper.extract_company_info`

BeautifulSoup is abstracted as an oracle: `selectOne sel` is the text
content (`get_text`, with stripping where the source passes
`strip=True`) of the first element matching the CSS selector `sel`, or
`none` when no element matches; `pageText` is `soup.get_text()`;
`links` lists the `(href, link text)` of the `<a>` elements with
absolute `http(s)` hrefs scanned by `_extract_contact_info`; and
`socialLinks pat` is the href of the first `<a>` whose href matches the
platform regex `pat`, or `none`. -/

structure ClutchSoup where
  selectOne : String → Option String
  pageText : String
  links : List (String × String)
  socialLinks : String → Option String

def name_selectors : List String :=
  [ "h1.company-name", "h1.profile-name", "h1.header-company-title"
  , "h1", ".company-name", ".profile-name", ".header-company-title" ]

def tagline_selectors : List String :=
  [ "h2.tagline", "h2.subtitle", "h2.description"
  , ".tagline", ".subtitle", ".description", ".company-description" ]

def desc_selectors : List String :=
  [ "div[class*=\"description\"]", "div[class*=\"about\"]"
  , "p[class*=\"description\"]", ".company-description"
  , ".profile-description", ".about-company" ]

def reviews_selectors : List String :=
  [ ".reviews-count", ".review-count", ".rating-count"
  , "[class*=\"review\"]", "[class*=\"rating\"]" ]

def rating_selectors : List String :=
  [ ".rating", ".stars", ".review-rating"
  , "[class*=\"rating\"]", "[class*=\"stars\"]" ]

def location_selectors : List String :=
  [ ".location", ".address", ".company-location"
  , "[class*=\"location\"]", "[class*=\"address\"]" ]

def email_pattern : String :=
  "[a-zA-Z0-9._%+-]+@[a-zA-Z0-9.-]+\\.[a-zA-Z]\x7b2,\x7d"

def phone_pattern : String :=
  "[\\+]?[1-9]?[0-9]\x7b7,14\x7d"

def social_platforms : List (String × String) :=
  [ ("linkedin", "linkedin\\.com")
  , ("facebook", "facebook\\.com")
  , ("twitter", "twitter\\.com|x\\.com")
  , ("instagram", "instagram\\.com") ]

/-- The selector loop repeated in `extract_company_info`: take the first
selector whose element exists and whose text the field accepts. -/
def firstSelect (soup : ClutchSoup) :
    List String → (String → Bool) → Option String
  | [], _ => none
  | s :: rest, valid =>
    match soup.selectOne s with
    | some t => if valid t then some t else firstSelect soup rest valid
    | none => firstSelect soup rest valid

/-- The selector-then-regex loop used for the review count and rating:
take the first selector whose element exists and whose text the pattern
matches, returning the match groups. -/
def firstSelectSearch (eng : RegexEngine) (soup : ClutchSoup) :
    List String → String → Option (List String)
  | [], _ => none
  | s :: rest, pat =>
    match soup.selectOne s with
    | some t =>
      match eng.search pat t with
      | some gs => some gs
      | none => firstSelectSearch eng soup rest pat
    | none => firstSelectSearch eng soup rest pat

/-- Model of `ClutchProfileScraper._extract_services`: the same
orientation loop as the simple scraper but with no label validation and
no cap on the number of entries. -/
def extract_services (eng : RegexEngine) (pageText : String) :
    List ServiceEntry :=
  servicesLoop eng pageText (fun _ => true)

/-- Model of `ClutchProfileScraper._extract_contact_info`: first email
and first phone regex match in the page text, then the first
non-clutch.co link whose text mentions "website" or "visit". -/
def extract_contact_info (eng : RegexEngine) (soup : ClutchSoup) :
    List (String × String) :=
  let contact : List (String × String) := []
  let contact := match (eng.findall email_pattern soup.pageText).head? with
    | some e => contact ++ [("email", e)]
    | none => contact
  let contact := match (eng.findall phone_pattern soup.pageText).head? with
    | some p => contact ++ [("phone", p)]
    | none => contact
  match soup.links.findSome? (fun l =>
      if !(strHasSub l.1 "clutch.co") &&
          (strHasSub (pyLower l.2) "website" ||
            strHasSub (pyLower l.2) "visit") then
        some l.1
      else none) with
  | some w => contact ++ [("website", w)]
  | none => contact

/-- Model of `ClutchProfileScraper._extract_social_media`: for each
platform in declaration order, record the first link whose href matches
the platform pattern. -/
def extract_social_media (soup : ClutchSoup) : List (String × String) :=
  social_platforms.foldl (fun sm pp =>
    match soup.socialLinks pp.2 with
    | some href => sm ++ [(pp.1, href)]
    | none => sm) []

/-- The `company_data` dict built by `extract_company_info`, one field
per key in declaration order; the dict-valued fields are association
lists. -/
structure ClutchRecord where
  url : String
  company_name : String
  tagline : String
  description : String
  reviews_count : Nat
  reviews_rating : ℚ
  min_project_size : String
  hourly_rate : String
  employees : String
  year_founded : String
  location : String
  services : List ServiceEntry
  industries : List String
  clients : List String
  contact_info : List (String × String)
  social_media : List (String × String)
  additional_info : List (String × String)
deriving DecidableEq, Repr

/-- Model of `ClutchProfileScraper.extract_company_info(soup, url)`:
selector cascades per field, the URL-slug fallback for the company
name, `_extract_company_stats` regexes over the page text, and the
services/contact/social sub-extractors. -/
def extract_company_info (eng : RegexEngine) (soup : ClutchSoup)
    (url : String) : ClutchRecord :=
  let company_name := (firstSelect soup name_selectors
      (fun t => t != "" && t != "clutch.co")).getD ""
  let company_name :=
    if company_name == "" || company_name == "clutch.co" then
      pyTitle (replaceChar ((pySplitChar url '/').getLastD "") '-' ' ')
    else company_name
  { url := url
  , company_name := company_name
  , tagline := (firstSelect soup tagline_selectors (fun _ => true)).getD ""
  , description := (firstSelect soup desc_selectors (fun _ => true)).getD ""
  , reviews_count :=
      ((firstSelectSearch eng soup reviews_selectors
        "(\\d+)\\s*review").map (fun gs => pyInt (gs.headD ""))).getD 0
  , reviews_rating :=
      ((firstSelectSearch eng soup rating_selectors
        "(\\d+\\.?\\d*)").map (fun gs => eng.pyFloat (gs.headD ""))).getD 0
  , min_project_size :=
      ((eng.search "\\$([0-9,]+\\+?)" soup.pageText).map
        (fun gs => "$" ++ gs.headD "")).getD ""
  , hourly_rate :=
      ((eng.search "\\$(\\d+)\\s*-\\s*\\$(\\d+)\\s*/\\s*hr"
          soup.pageText).map
        (fun gs => "$" ++ gs.headD "" ++ " - $" ++ gs.getD 1 "" ++
          " / hr")).getD ""
  , employees :=
      ((eng.search "(\\d+)\\s*-\\s*(\\d+)" soup.pageText).map
        (fun gs => gs.headD "" ++ " - " ++ gs.getD 1 "")).getD ""
  , year_founded :=
      ((eng.search "Founded\\s*(\\d\x7b4\x7d)" soup.pageText).map
        (fun gs => gs.headD "")).getD ""
  , location := (firstSelect soup location_selectors (fun _ => true)).getD ""
  , services := extract_services eng soup.pageText
  , industries := []
  , clients := []
  , contact_info := extract_contact_info eng soup
  , social_media := extract_social_media soup
  , additional_info := [] }

/-- A soup on which every strategy of every field fails: no selector
matches, the page text is empty, and no links exist. -/
def soup0 : ClutchSoup :=
  { selectOne := fun _ => none
  , pageText := ""
  , links := []
  , socialLinks := fun _ => none }

/-- An engine on which every regex strategy fails to match. -/
def eng0 : RegexEngine :=
  { search := fun _ _ => none
  , findall := fun _ _ => []
  , findallPairs := fun _ _ => []
  , pyFloat := fun _ => 0 }

/-- An engine whose two-group pattern scans each report 11 matches of
the shape "Web Design 10%", as a long page text produces. -/
def eng11 : RegexEngine :=
  { search := fun _ _ => none
  , findall := fun _ _ => []
  , findallPairs := fun _ _ => List.replicate 11 ("Web Design ", "10")
  , pyFloat := fun _ => 0 }

/-! ## Definitions end here; lemmas and claim theorems follow. -/

/-- On a run where every attempt fails validation, the loop over attempt
numbers `[a, a+1, …, a+k-1]` makes all `k` attempts, returns `None`,
sleeps `2 ^ n` seconds after each failed attempt `n < maxRetries - 1`,
and uses header profile `n % 3` on attempt `n`. -/
lemma fetchLoop_allFail (oracle : Nat → AttemptResult) (m : Nat)
    (hfail : ∀ n c, oracle n ≠ .ok c) :
    ∀ k a, fetchLoop oracle m (List.range' a k) =
      ⟨none, k,
        ((List.range' a k).filter (fun n => decide (n < m - 1))).map (2 ^ ·),
        (List.range' a k).map
          (fun n => headers_list[n % headers_list.length]!)⟩ := by
  intro k
  induction k with
  | zero => intro a; rfl
  | succ k ih =>
    intro a
    rw [List.range'_succ, fetchLoop]
    rcases hor : oracle a with c | _ | _
    · exact absurd hor (hfail a c)
    all_goals
      simp only [ih (a + 1), List.filter_cons, List.map_cons]
      by_cases hlt : a < m - 1 <;> simp [hlt]

/-- Filtering `range m` by `(· < k)` gives `range k` when `k ≤ m`. -/
lemma range_filter_lt (m k : Nat) (h : k ≤ m) :
    (List.range m).filter (fun n => decide (n < k)) = List.range k := by
  induction m with
  | zero => simp [Nat.le_zero.mp h]
  | succ m ih =>
    rcases Nat.lt_or_ge k (m + 1) with hk | hk
    · have hkm : k ≤ m := Nat.lt_succ_iff.mp hk
      rw [List.range_succ, List.filter_append, ih hkm]
      simp [Nat.not_lt.mpr hkm]
    · have hkm : k = m + 1 := le_antisymm h hk
      subst hkm
      rw [List.filter_eq_self.mpr]
      intro a ha
      simp [List.mem_range.mp ha]

/-- C4: for every URL whose fetch fails validation on every attempt
(non-success status, exception, or content not identifiable as XML),
`fetch_sitemap_with_retry` makes exactly `max_retries` attempts and then
returns a failure result (`None`) rather than raising, and the backoff
delays inserted between attempts are non-decreasing across attempts. -/
theorem retry_bound (oracle : Nat → AttemptResult) (maxRetries : Nat)
    (hfail : ∀ n c, oracle n ≠ .ok c) :
    (fetch_sitemap_with_retry oracle maxRetries).result = none ∧
    (fetch_sitemap_with_retry oracle maxRetries).attempts = maxRetries ∧
    (fetch_sitemap_with_retry oracle maxRetries).delays.Pairwise (· ≤ ·) := by
  have hrun := fetchLoop_allFail oracle maxRetries hfail maxRetries 0
  rw [← List.range_eq_range'] at hrun
  unfold fetch_sitemap_with_retry
  rw [hrun]
  refine ⟨rfl, rfl, ?_⟩
  refine List.Pairwise.map _ (fun a b hab => ?_)
      ((List.pairwise_lt_range maxRetries).filter _)
  exact Nat.pow_le_pow_right (by norm_num) (Nat.le_of_lt hab)

/-- Witness for C4 at the default `max_retries = 3` with an oracle on
which every attempt raises a request exception. -/
theorem retry_bound_witness :
    (fetch_sitemap_with_retry (fun _ => .reqError) 3).result = none ∧
    (fetch_sitemap_with_retry (fun _ => .reqError) 3).attempts = 3 ∧
    (fetch_sitemap_with_retry (fun _ => .reqError) 3).delays.Pairwise (· ≤ ·) :=
  retry_bound (fun _ => .reqError) 3 (fun _ _ => by simp)

/-- C5 counterexample: the delay slept after failed attempt 0 is
`2 ** 0 = 1` second, not `base_delay × 2^0 = 2` seconds with a
configurable `base_delay` defaulting to 2; the backoff base is the
hardcoded literal `2` used as the exponent base. -/
theorem backoff_base_counterexample :
    (fetch_sitemap_with_retry (fun _ => .reqError) 3).delays = [1, 2] ∧
    (fetch_sitemap_with_retry (fun _ => .reqError) 3).delays.headI ≠ 2 * 2 ^ 0 := by
  constructor <;> decide

/-- C5 amended: after every failed attempt `n` with attempts remaining,
the delay is the hardcoded `2 ^ n` seconds (no configurable base
factor), and attempt `n` uses header profile
`headers_list[n % len(headers_list)]`. -/
theorem backoff_and_header_rotation (oracle : Nat → AttemptResult)
    (m : Nat) (hfail : ∀ n c, oracle n ≠ .ok c) :
    (fetch_sitemap_with_retry oracle m).delays =
      (List.range (m - 1)).map (2 ^ ·) ∧
    (fetch_sitemap_with_retry oracle m).headersUsed =
      (List.range m).map (fun n => headers_list[n % headers_list.length]!) := by
  have hrun := fetchLoop_allFail oracle m hfail m 0
  rw [← List.range_eq_range'] at hrun
  unfold fetch_sitemap_with_retry
  rw [hrun, range_filter_lt m (m - 1) (Nat.sub_le m 1)]
  exact ⟨rfl, rfl⟩

/-- Witness for C5's amended theorem at `max_retries = 3` with an oracle
on which every attempt returns non-XML content. -/
theorem backoff_and_header_rotation_witness :
    (fetch_sitemap_with_retry (fun _ => .nonXml) 3).delays =
      (List.range 2).map (2 ^ ·) ∧
    (fetch_sitemap_with_retry (fun _ => .nonXml) 3).headersUsed =
      (List.range 3).map (fun n => headers_list[n % headers_list.length]!) :=
  backoff_and_header_rotation (fun _ => .nonXml) 3 (fun _ _ => by simp)

/-- C2 counterexample: a sitemap index with two child sitemaps whose
locations name documents of 2 distinct URLs each.  The child references
are detected (`sitemapRefs`), yet resolving the index yields `[]` — not
the 4-URL union — because nothing recurses into the children. -/
theorem sitemap_recursion_counterexample :
    sitemapRefs exIndex =
      [ "https://clutch.co/sitemap-profile-1.xml"
      , "https://clutch.co/sitemap-profile-2.xml" ] ∧
    (parse_sitemap_xml exChild1 ++ parse_sitemap_xml exChild2).length = 4 ∧
    (parse_sitemap_xml exChild1 ++ parse_sitemap_xml exChild2).Nodup ∧
    process_single_sitemap (some exIndex) = [] := by
  refine ⟨?_, ?_, ?_, ?_⟩ <;> decide

/-- C2 amended: `parse_sitemap_xml` scans for `<sitemap><loc>` entries
but only reports them; resolution does not recurse, so any document
without `<url>` descendants — in particular a pure sitemap index —
resolves to no URLs at all (and termination on self-referencing indexes
is trivial, since no reference is ever followed). -/
theorem sitemap_index_not_recursed (root : XElem)
    (h : ∀ e ∈ root.descendants,
      e.tag ≠ sitemapNS ++ "url" ∧ e.tag ≠ "url") :
    process_single_sitemap (some root) = [] := by
  have h1 : findall root (sitemapNS ++ "url") = [] := by
    rw [findall, List.filter_eq_nil_iff]
    intro e he
    simp [(h e he).1]
  have h2 : findall root "url" = [] := by
    rw [findall, List.filter_eq_nil_iff]
    intro e he
    simp [(h e he).2]
  simp [process_single_sitemap, parse_sitemap_xml, h1, h2, locEntries]

/-- Witness for C2's amended theorem at the concrete sitemap index. -/
theorem sitemap_index_not_recursed_witness :
    process_single_sitemap (some exIndex) = [] :=
  sitemap_index_not_recursed exIndex (by decide)

/-- C9: the parser first extracts namespace-qualified `<url><loc>`
entries; the returned list equals those entries when at least one was
found, and otherwise equals the entries extracted without namespace
qualification. -/
theorem namespace_fallback (root : XElem) :
    (locEntries (findall root (sitemapNS ++ "url")) (sitemapNS ++ "loc") ≠ [] →
      parse_sitemap_xml root =
        locEntries (findall root (sitemapNS ++ "url")) (sitemapNS ++ "loc")) ∧
    (locEntries (findall root (sitemapNS ++ "url")) (sitemapNS ++ "loc") = [] →
      parse_sitemap_xml root = locEntries (findall root "url") "loc") := by
  constructor <;> intro h <;>
    simp [parse_sitemap_xml, List.isEmpty_iff, h]

/-- Witness for C9: a well-formed sitemap that omits the namespace
declaration still yields its URLs through the fallback branch. -/
theorem namespace_fallback_witness :
    parse_sitemap_xml exChild1 =
      ["https://clutch.co/profile/a", "https://clutch.co/profile/b"] := by
  have h := (namespace_fallback exChild1).2 (by decide)
  rw [h]; decide

/-- Each URL-loop iteration leaves `results` unchanged (skip, or scrape
exception) or appends exactly the scraped record for a URL not yet
present. -/
lemma processUrl_results (scrape : String → Option BatchRecord)
    (writeOk : Nat → Bool) (st : BatchState) (u : String) :
    (processUrl scrape writeOk st u).results = st.results ∨
      ∃ r, scrape u = some r ∧
        (st.results.any (fun x => x.url == u)) = false ∧
        (processUrl scrape writeOk st u).results = st.results ++ [r] := by
  unfold processUrl
  by_cases h : st.results.any (fun r => r.url == u)
  · left; simp [h]
  · cases hs : scrape u with
    | none => left; simp [h, hs]
    | some r =>
        right
        exact ⟨r, rfl, by simpa using h, by simp [h, hs, save_results]⟩

/-- Over a whole run, `results` only grows by appending: the loaded
ledger is an unchanged initial segment of the final one. -/
lemma run_results_append (scrape : String → Option BatchRecord)
    (writeOk : Nat → Bool) :
    ∀ (urls : List String) (st : BatchState),
      ∃ t, (urls.foldl (processUrl scrape writeOk) st).results =
        st.results ++ t := by
  intro urls
  induction urls with
  | nil => intro st; exact ⟨[], by simp⟩
  | cons u us ih =>
    intro st
    obtain ⟨t, ht⟩ := ih (processUrl scrape writeOk st u)
    rcases processUrl_results scrape writeOk st u with heq | ⟨r, _, _, heq⟩
    · exact ⟨t, by rw [List.foldl_cons, ht, heq]⟩
    · exact ⟨r :: t, by rw [List.foldl_cons, ht, heq]; simp⟩

/-- A run preserves the at-most-one-record-per-URL invariant of the
ledger. -/
lemma run_results_nodup (scrape : String → Option BatchRecord)
    (writeOk : Nat → Bool)
    (hscrape : ∀ u r, scrape u = some r → r.url = u) :
    ∀ (urls : List String) (st : BatchState),
      (st.results.map BatchRecord.url).Nodup →
      (((urls.foldl (processUrl scrape writeOk) st).results).map
        BatchRecord.url).Nodup := by
  intro urls
  induction urls with
  | nil => intro st h; simpa using h
  | cons u us ih =>
    intro st h
    rw [List.foldl_cons]
    refine ih _ ?_
    rcases processUrl_results scrape writeOk st u with heq | ⟨r, hs, hany, heq⟩
    · rw [heq]; exact h
    · rw [heq, List.map_append, List.nodup_append]
      refine ⟨h, List.nodup_singleton _, ?_⟩
      intro a ha hb
      rw [List.map_singleton, List.mem_singleton] at hb
      subst hb
      rw [hscrape u r hs] at ha
      obtain ⟨x, hx, hxu⟩ := List.mem_map.mp ha
      rw [List.any_eq_false] at hany
      exact absurd (by simpa using hxu) (hany x hx)

/-- C1: with every scraped record carrying its input URL and a loaded
ledger containing at most one record per URL, a run (over any URL list,
with any pattern of write failures) skips already-persisted URLs —
existing records stay unchanged as an initial segment — and never
appends a second record for a URL, so the ledger keeps at most one
record per URL across any number of runs and restarts. -/
theorem resume_idempotent (scrape : String → Option BatchRecord)
    (writeOk : Nat → Bool) (loaded : List BatchRecord) (urls : List String)
    (hscrape : ∀ u r, scrape u = some r → r.url = u)
    (hnodup : (loaded.map BatchRecord.url).Nodup) :
    (((scrape_multiple_profiles scrape writeOk loaded urls).results).map
      BatchRecord.url).Nodup ∧
    ∃ t, (scrape_multiple_profiles scrape writeOk loaded urls).results =
      loaded ++ t :=
  ⟨run_results_nodup scrape writeOk hscrape urls ⟨loaded, loaded, 0⟩ hnodup,
   run_results_append scrape writeOk urls ⟨loaded, loaded, 0⟩⟩

/-- Witness for C1: a ledger already holding profile `a`, rerun over a
list containing `a` and a new profile `b`. -/
theorem resume_idempotent_witness :
    (((scrape_multiple_profiles (fun u => some ⟨u, ""⟩) (fun _ => true)
        [⟨"https://clutch.co/profile/a", "done"⟩]
        ["https://clutch.co/profile/a", "https://clutch.co/profile/b"]).results).map
      BatchRecord.url).Nodup ∧
    ∃ t, (scrape_multiple_profiles (fun u => some ⟨u, ""⟩) (fun _ => true)
        [⟨"https://clutch.co/profile/a", "done"⟩]
        ["https://clutch.co/profile/a", "https://clutch.co/profile/b"]).results =
      [⟨"https://clutch.co/profile/a", "done"⟩] ++ t :=
  resume_idempotent (fun u => some ⟨u, ""⟩) (fun _ => true)
    [⟨"https://clutch.co/profile/a", "done"⟩]
    ["https://clutch.co/profile/a", "https://clutch.co/profile/b"]
    (fun u r h => by rw [← Option.some.inj h]) (by decide)

/-- C3 counterexample: the very first ledger write fails, yet the run is
not aborted — the second URL is still scraped and appended, and a later
write succeeds.  `save_results` catches the write error and only logs
it. -/
theorem persistence_abort_counterexample :
    (fun n => n != 0) 0 = false ∧
    (scrape_multiple_profiles (fun u => some ⟨u, ""⟩) (fun n => n != 0) []
        ["https://clutch.co/profile/a", "https://clutch.co/profile/b"]).results =
      [⟨"https://clutch.co/profile/a", ""⟩, ⟨"https://clutch.co/profile/b", ""⟩] ∧
    (scrape_multiple_profiles (fun u => some ⟨u, ""⟩) (fun n => n != 0) []
        ["https://clutch.co/profile/a", "https://clutch.co/profile/b"]).saves = 2 := by
  refine ⟨rfl, ?_, ?_⟩ <;> decide

/-- C3 amended: a persistence failure is caught and logged inside
`save_results` and the batch continues; which URLs get scraped and
appended is entirely independent of write failures (the persisted file
is simply left at the last successful write). -/
theorem persistence_failure_continues (scrape : String → Option BatchRecord)
    (writeOk : Nat → Bool) (loaded : List BatchRecord) (urls : List String) :
    (scrape_multiple_profiles scrape writeOk loaded urls).results =
      (scrape_multiple_profiles scrape (fun _ => true) loaded urls).results := by
  suffices h : ∀ (us : List String) (st1 st2 : BatchState),
      st1.results = st2.results →
      (us.foldl (processUrl scrape writeOk) st1).results =
        (us.foldl (processUrl scrape (fun _ => true)) st2).results from
    h urls ⟨loaded, loaded, 0⟩ ⟨loaded, loaded, 0⟩ rfl
  intro us
  induction us with
  | nil => intro st1 st2 h; simpa using h
  | cons u us ih =>
    intro st1 st2 h
    rw [List.foldl_cons, List.foldl_cons]
    apply ih
    unfold processUrl save_results
    rw [h]
    by_cases hd : st2.results.any (fun r => r.url == u) <;>
      cases hs : scrape u <;> simp [hd, hs, h]

/-- C6: in a field cascade with strategies `[A, B]` where `A` yields no
value passing the field's validation on the given content and `B` yields
a passing value `v`, the committed value is `B`'s `v`, never `A`'s. -/
theorem cascade_first_match_wins (A B : String → Option String)
    (validate : String → Bool) (html v : String)
    (hA : ∀ w, A html = some w → validate w = false)
    (hB : B html = some v) (hv : validate v = true) :
    tryPatterns [A, B] validate html = some v := by
  cases hA' : A html with
  | none => simp [tryPatterns, hA', hB, hv]
  | some w => simp [tryPatterns, hA', hA w hA', hB, hv]

/-- Witness for C6 with the company-name validator: strategy `A`
matches but yields an empty (invalid) name, strategy `B` yields a valid
one. -/
theorem cascade_first_match_wins_witness :
    tryPatterns [fun _ => some "", fun _ => some "Acme Digital"]
      (fun name => name != "" && name.length < 100) "<h1></h1>" =
      some "Acme Digital" :=
  cascade_first_match_wins (fun _ => some "") (fun _ => some "Acme Digital")
    (fun name => name != "" && name.length < 100) "<h1></h1>" "Acme Digital"
    (fun w hw => by injection hw with h; subst h; rfl) rfl rfl

/-- A selector cascade where every existing element's text fails the
field's acceptance test commits nothing. -/
lemma firstSelect_failValid (soup : ClutchSoup) (selectors : List String)
    (valid : String → Bool)
    (h : ∀ s ∈ selectors, ∀ t, soup.selectOne s = some t →
      valid t = false) :
    firstSelect soup selectors valid = none := by
  induction selectors with
  | nil => rfl
  | cons s ss ih =>
    cases hs : soup.selectOne s with
    | none =>
        simp only [firstSelect, hs]
        exact ih fun q hq => h q (List.mem_cons_of_mem s hq)
    | some t =>
        simp only [firstSelect, hs, h s (List.mem_cons_self s ss) t hs,
          Bool.false_eq_true, if_false]
        exact ih fun q hq => h q (List.mem_cons_of_mem s hq)

/-- C7: when every name selector finds nothing or only the site's own
brand name, the extracted company name is the URL's last path segment
with hyphens replaced by spaces, title-cased. -/
theorem company_name_fallback (eng : RegexEngine) (soup : ClutchSoup)
    (url seg : String)
    (hsel : ∀ s ∈ name_selectors, ∀ t, soup.selectOne s = some t →
      t = "" ∨ t = "clutch.co")
    (hseg : (pySplitChar url '/').getLastD "" = seg) :
    (extract_company_info eng soup url).company_name =
      pyTitle (replaceChar seg '-' ' ') := by
  have hnone : firstSelect soup name_selectors
      (fun t => t != "" && t != "clutch.co") = none := by
    apply firstSelect_failValid
    intro s hs t ht
    rcases hsel s hs t ht with h | h <;> simp [h]
  have hseg' : ((pySplitChar url '/').getLast?).getD "" = seg := by
    rw [← List.getLastD_eq_getLast?]; exact hseg
  simp [extract_company_info, hnone, hseg']

/-- Witness for C7: a page with no matching name selector and the URL
`…/profile/acme-consulting` yields the name "Acme Consulting". -/
theorem company_name_fallback_witness :
    (∀ s ∈ name_selectors, ∀ t, soup0.selectOne s = some t →
      t = "" ∨ t = "clutch.co") ∧
    (pySplitChar "https://clutch.co/profile/acme-consulting" '/').getLastD ""
      = "acme-consulting" ∧
    (extract_company_info eng0 soup0
      "https://clutch.co/profile/acme-consulting").company_name =
      "Acme Consulting" := by
  refine ⟨fun s _ t ht => absurd ht (by simp [soup0]), by decide, ?_⟩
  have h := company_name_fallback eng0 soup0
    "https://clutch.co/profile/acme-consulting" "acme-consulting"
    (fun s _ t ht => absurd ht (by simp [soup0])) (by decide)
  rw [h]; decide

/-- C8 counterexample: a page text on which each of the two
label-percentage scans reports 11 matches; the full profile extractor's
record then carries 22 service entries, above any cap of 10. -/
theorem services_cap_counterexample :
    (extract_company_info eng11 soup0
      "https://clutch.co/profile/acme").services.length = 22 ∧
    ¬((extract_company_info eng11 soup0
      "https://clutch.co/profile/acme").services.length ≤ 10) := by
  refine ⟨?_, ?_⟩ <;> decide

/-- Mapping every element to `some` of something keeps the length under
`filterMap`. -/
lemma length_filterMap_some {α β : Type} (f : α → β) (l : List α) :
    (l.filterMap (fun a => some (f a))).length = l.length := by
  induction l with
  | nil => rfl
  | cons a l ih => simp [List.filterMap_cons, ih]

/-- C8 amended: the lightweight extractor caps its services list at 10
entries (`services[:10]`), but `_extract_services` in the full profile
extractor applies no cap — its list has exactly one entry per
label-percentage match, however many occur. -/
theorem services_cap_amended :
    (∀ (eng : RegexEngine) (html url : String),
      (extract_basic_info eng html url).services.length ≤ 10) ∧
    (∀ (eng : RegexEngine) (soup : ClutchSoup) (url : String),
      (extract_company_info eng soup url).services.length =
        (service_patterns.map
          (fun p => (eng.findallPairs p soup.pageText).length)).sum) := by
  constructor
  · intro eng html url
    simpa only [extract_basic_info] using
      List.length_take_le 10 (servicesLoop eng html
        (fun service => 5 < service.length && service.length < 50))
  · intro eng soup url
    simp [extract_company_info, extract_services, servicesLoop,
      service_patterns, length_filterMap_some]

/-- C10 counterexample: on a page where every strategy of every field
fails, the full extractor does not leave `company_name` at its declared
default `''` — it derives it from the URL slug instead. -/
theorem extraction_default_counterexample :
    (∀ s, soup0.selectOne s = none) ∧
    (extract_company_info eng0 soup0
      "https://clutch.co/profile/acme-consulting").company_name =
      "Acme Consulting" ∧
    (extract_company_info eng0 soup0
      "https://clutch.co/profile/acme-consulting").company_name ≠ "" := by
  refine ⟨fun s => rfl, ?_, ?_⟩ <;> decide

/-- C10 amended: both extractors are total and return a record with
every declared field; the `url` field equals the input URL, and on
content where no strategy of any field matches, every field keeps its
declared default (empty string, 0, or empty collection) — except
`extract_company_info`'s `company_name`, which is derived from the
URL's last path segment. -/
theorem extraction_record_shape (eng : RegexEngine) (soup : ClutchSoup)
    (html url : String)
    (hsearch : ∀ p t, eng.search p t = none)
    (hfindall : ∀ p t, eng.findall p t = [])
    (hpairs : ∀ p t, eng.findallPairs p t = [])
    (hsel : ∀ s, soup.selectOne s = none)
    (hlinks : soup.links = [])
    (hsocial : ∀ p, soup.socialLinks p = none) :
    extract_basic_info eng html url =
      { url := url, company_name := "", description := ""
      , reviews_count := 0, location := "", min_project_size := ""
      , hourly_rate := "", employees := "", year_founded := ""
      , services := [], contact_website := ""
      , extraction_method := "regex_patterns" } ∧
    extract_company_info eng soup url =
      { url := url
      , company_name :=
          pyTitle (replaceChar ((pySplitChar url '/').getLastD "") '-' ' ')
      , tagline := "", description := "", reviews_count := 0
      , reviews_rating := 0, min_project_size := "", hourly_rate := ""
      , employees := "", year_founded := "", location := ""
      , services := [], industries := [], clients := []
      , contact_info := [], social_media := [], additional_info := [] } := by
  constructor
  · simp [extract_basic_info, tryPatterns, findValidMatch, servicesLoop,
      name_patterns, desc_patterns, review_patterns, location_patterns,
      project_patterns, rate_patterns, employee_patterns, founded_patterns,
      service_patterns, website_patterns, hsearch, hfindall, hpairs]
  · simp [extract_company_info, extract_services, servicesLoop,
      extract_contact_info, extract_social_media, firstSelect,
      firstSelectSearch, name_selectors, tagline_selectors, desc_selectors,
      reviews_selectors, rating_selectors, location_selectors,
      social_platforms, service_patterns, hsearch, hfindall, hpairs, hsel,
      hlinks, hsocial]

/-- Witness for C10's amended theorem: the all-fail engine and soup with
the `…/profile/acme-consulting` URL. -/
theorem extraction_record_shape_witness :
    (∀ p t, eng0.search p t = none) ∧ (∀ s, soup0.selectOne s = none) ∧
    extract_basic_info eng0 "" "https://clutch.co/profile/acme-consulting" =
      { url := "https://clutch.co/profile/acme-consulting"
      , company_name := "", description := "", reviews_count := 0
      , location := "", min_project_size := "", hourly_rate := ""
      , employees := "", year_founded := "", services := []
      , contact_website := "", extraction_method := "regex_patterns" } ∧
    extract_company_info eng0 soup0
        "https://clutch.co/profile/acme-consulting" =
      { url := "https://clutch.co/profile/acme-consulting"
      , company_name := "Acme Consulting"
      , tagline := "", description := "", reviews_count := 0
      , reviews_rating := 0, min_project_size := "", hourly_rate := ""
      , employees := "", year_founded := "", location := ""
      , services := [], industries := [], clients := []
      , contact_info := [], social_media := [], additional_info := [] } := by
  have h := extraction_record_shape eng0 soup0 ""
    "https://clutch.co/profile/acme-consulting"
    (fun p t => rfl) (fun p t => rfl) (fun p t => rfl) (fun s => rfl)
    rfl (fun p => rfl)
  refine ⟨fun p t => rfl, fun s => rfl, h.1, ?_⟩
  rw [h.2]; decide

end Clutch
